import Mathlib

/-!
Verification of the tacobot group-order core against its specification.

The definitions below are a shallow embedding of the TypeScript source:

* `GroupOrderStatus`, `UserOrderStatus` — the status enums
  (`shared/types/types.ts`).
* `GroupOrder` with `isOpenForOrders`, `canBeModified`, `isLeader` — the
  group-order domain entity (`src/domain/entities/group-order.entity.ts`);
  the entity methods read `new Date()`, which the embedding passes
  explicitly as an integer parameter `now`.
* `getEffectiveGroupOrderStatus` — the pure effective-status computation
  (`schemas/group-order.schema.ts`).
* `UserOrder` with `isSubmitted`, `isEmpty` — the participant-order entity
  (`src/domain/entities/user-order.entity.ts`).
* the use cases and services operating on them, embedded as pure functions
  over these structures, with repository reads and external calls passed
  in as parameters.
* `generateTacoID` / `normalizeTaco` — the deterministic composite-item
  identifier (`gigatacos-client/utils/taco-id.ts`); the SHA-256 digest is
  kept as an abstract function parameter, and its collision-freeness on
  the canonical serializations is an explicit injectivity hypothesis where
  a property needs it.
* `transactionId` / `submitOrder` — the external submission call
  (`TacosApiService.submitOrder`), whose per-call transaction id is built
  from `Date.now()` and a random suffix, both passed as parameters.

Dates and times are modelled as integers (milliseconds since epoch);
JavaScript `Date` comparison on such values is integer comparison.
The file first gives all definitions, then the theorems.
-/

/-- `GroupOrderStatus` enum from `shared/types/types.ts`. -/
inductive GroupOrderStatus where
  | OPEN
  | CLOSED
  | EXPIRED
  | SUBMITTED
  | COMPLETED
deriving DecidableEq, Repr

/-- `UserOrderStatus` enum (participant-order status). -/
inductive UserOrderStatus where
  | DRAFT
  | SUBMITTED
deriving DecidableEq, Repr

/-- Group order domain entity (`group-order.entity.ts`). -/
structure GroupOrder where
  id : String
  groupOrderId : String
  leaderId : String
  startDate : Int
  endDate : Int
  status : GroupOrderStatus
  name : Option String := none
deriving DecidableEq, Repr

namespace GroupOrder

/-- `GroupOrder.isOpenForOrders`: status is OPEN and `now` lies in
`[startDate, endDate]`.  The source reads `new Date()`; the embedding
takes `now` as a parameter. -/
def isOpenForOrders (o : GroupOrder) (now : Int) : Bool :=
  if o.status ≠ GroupOrderStatus.OPEN then false
  else decide (o.startDate ≤ now) && decide (now ≤ o.endDate)

/-- `GroupOrder.canBeModified`: status OPEN and `isOpenForOrders`. -/
def canBeModified (o : GroupOrder) (now : Int) : Bool :=
  o.status = GroupOrderStatus.OPEN && o.isOpenForOrders now

/-- `GroupOrder.isLeader`. -/
def isLeader (o : GroupOrder) (userId : String) : Bool :=
  o.leaderId = userId

end GroupOrder

/-- `getEffectiveGroupOrderStatus` (`schemas/group-order.schema.ts`):
computes the effective status from the stored status and the reference
date. -/
def getEffectiveGroupOrderStatus (o : GroupOrder) (referenceDate : Int) :
    GroupOrderStatus :=
  if o.status = GroupOrderStatus.SUBMITTED ∨ o.status = GroupOrderStatus.COMPLETED then
    o.status
  else if o.status = GroupOrderStatus.CLOSED then
    o.status
  else if o.status = GroupOrderStatus.OPEN then
    if referenceDate > o.endDate then GroupOrderStatus.EXPIRED
    else GroupOrderStatus.OPEN
  else
    o.status

/-- Error taxonomy of the service layer (`utils/errors.ts`): a
`ValidationError` carries a message and optional detail strings, a
`NotFoundError` carries a message. -/
inductive SvcError where
  | validation (message : String) (details : List String)
  | notFound (message : String)
deriving DecidableEq, Repr

/-- `GroupOrderService.submitGroupOrder` (Finalize): reject unless the
caller is the leader; reject unless the stored status is OPEN; reject
unless `isOpenForOrders` holds at call time; otherwise persist status
SUBMITTED.  The repository read of the group order and the current time
are parameters; the returned value is the updated group order. -/
def submitGroupOrder (groupOrder : GroupOrder) (userId : String) (now : Int) :
    Except SvcError GroupOrder :=
  if ¬ groupOrder.isLeader userId then
    Except.error (SvcError.validation
      "Only the group order leader can submit the group order" [])
  else if groupOrder.status ≠ GroupOrderStatus.OPEN then
    Except.error (SvcError.validation "Cannot submit group order. Current status" [])
  else if ¬ groupOrder.isOpenForOrders now then
    Except.error (SvcError.validation
      "Cannot submit group order outside of the allowed date range" [])
  else
    Except.ok { groupOrder with status := GroupOrderStatus.SUBMITTED }

/-- Meat selection inside a taco line item: code plus quantity. -/
structure MeatSel where
  id : String
  quantity : Nat
deriving DecidableEq, Repr

/-- Sauce selection inside a taco line item. -/
structure SauceSel where
  id : String
deriving DecidableEq, Repr

/-- Garniture selection inside a taco line item. -/
structure GarnSel where
  id : String
deriving DecidableEq, Repr

/-- A configured taco line item of a participant order (`UserOrderItems`
taco entry): size, the three selection sets, optional free-text note and
quantity. -/
structure TacoItem where
  id : String
  size : String
  meats : List MeatSel
  sauces : List SauceSel
  garnitures : List GarnSel
  note : Option String
  quantity : Nat
deriving DecidableEq, Repr

/-- A simple quantity item (extra, drink or dessert). -/
structure SimpleItem where
  id : String
  name : String
  quantity : Nat
deriving DecidableEq, Repr

/-- The item bag of a participant order (`UserOrderItems`). -/
structure UserOrderItems where
  tacos : List TacoItem
  extras : List SimpleItem
  drinks : List SimpleItem
  desserts : List SimpleItem
deriving DecidableEq, Repr

/-- Participant order domain entity (`user-order.entity.ts`). -/
structure UserOrder where
  id : String
  groupOrderId : String
  userId : String
  items : UserOrderItems
  status : UserOrderStatus
deriving DecidableEq, Repr

namespace UserOrder

/-- `UserOrder.isSubmitted`. -/
def isSubmitted (uo : UserOrder) : Bool :=
  uo.status = UserOrderStatus.SUBMITTED

/-- `UserOrder.isEmpty`: no line item in any of the four categories. -/
def isEmpty (uo : UserOrder) : Bool :=
  uo.items.tacos.isEmpty && uo.items.extras.isEmpty &&
    uo.items.drinks.isEmpty && uo.items.desserts.isEmpty

end UserOrder

/-- Stock entry for one product code (`StockStatus`). -/
structure StockStatus where
  in_stock : Bool
deriving DecidableEq, Repr

/-- Stock snapshot across categories (`StockAvailability`): each category
maps product codes to an optional stock entry (a missing code behaves as
out of stock, matching `!stock.cat[id]?.in_stock`). -/
structure StockAvailability where
  viandes : String → Option StockStatus
  sauces : String → Option StockStatus
  garnitures : String → Option StockStatus
  desserts : String → Option StockStatus
  boissons : String → Option StockStatus
  extras : String → Option StockStatus

/-- `stock.cat[id]?.in_stock` with JavaScript truthiness: an absent code
counts as not in stock. -/
def stockOk (cat : String → Option StockStatus) (id : String) : Bool :=
  match cat id with
  | some st => st.in_stock
  | none => false

/-- Out-of-stock entries collected by
`SubmitUserOrderUseCase.validateItemAvailability`, in push order: for each
taco its meats, sauces and garnitures, then extras, drinks and desserts.
The source pushes into an array inside nested loops; the embedding is the
corresponding flatten of filtered entries. -/
def outOfStockSubmit (items : UserOrderItems) (stock : StockAvailability) :
    List String :=
  (items.tacos.flatMap fun taco =>
    (taco.meats.filterMap fun meat =>
      if stockOk stock.viandes meat.id then none
      else some ("Meat: " ++ meat.id)) ++
    (taco.sauces.filterMap fun sauce =>
      if stockOk stock.sauces sauce.id then none
      else some ("Sauce: " ++ sauce.id)) ++
    (taco.garnitures.filterMap fun garniture =>
      if stockOk stock.garnitures garniture.id then none
      else some ("Garniture: " ++ garniture.id))) ++
  (items.extras.filterMap fun extra =>
    if stockOk stock.extras extra.id then none
    else some ("Extra: " ++ extra.id)) ++
  (items.drinks.filterMap fun drink =>
    if stockOk stock.boissons drink.id then none
    else some ("Drink: " ++ drink.id)) ++
  (items.desserts.filterMap fun dessert =>
    if stockOk stock.desserts dessert.id then none
    else some ("Dessert: " ++ dessert.id))

/-- `SubmitUserOrderUseCase.validateItemAvailability`: succeeds iff no
entry was collected, otherwise fails with the complete collected list. -/
def validateItemAvailabilitySubmit (items : UserOrderItems)
    (stock : StockAvailability) : Except SvcError Unit :=
  if outOfStockSubmit items stock = [] then Except.ok ()
  else Except.error (SvcError.validation "Some items are out of stock"
    (outOfStockSubmit items stock))

/-- Out-of-stock entries collected by
`CreateUserOrderUseCase.validateItemAvailability`; identical walk, but the
entries carry the display name (`meat.name || meat.id`); the embedded item
types carry the code only for meats/sauces/garnitures, so the fallback
code is used, and the simple items carry `name`. -/
def outOfStockCreate (items : UserOrderItems) (stock : StockAvailability) :
    List String :=
  (items.tacos.flatMap fun taco =>
    (taco.meats.filterMap fun meat =>
      if stockOk stock.viandes meat.id then none
      else some ("Meat: " ++ meat.id ++ " (" ++ meat.id ++ ")")) ++
    (taco.sauces.filterMap fun sauce =>
      if stockOk stock.sauces sauce.id then none
      else some ("Sauce: " ++ sauce.id ++ " (" ++ sauce.id ++ ")")) ++
    (taco.garnitures.filterMap fun garniture =>
      if stockOk stock.garnitures garniture.id then none
      else some ("Garniture: " ++ garniture.id ++ " (" ++ garniture.id ++ ")"))) ++
  (items.extras.filterMap fun extra =>
    if stockOk stock.extras extra.id then none
    else some ("Extra: " ++ extra.id ++ " (" ++ extra.name ++ ")")) ++
  (items.drinks.filterMap fun drink =>
    if stockOk stock.boissons drink.id then none
    else some ("Drink: " ++ drink.id ++ " (" ++ drink.name ++ ")")) ++
  (items.desserts.filterMap fun dessert =>
    if stockOk stock.desserts dessert.id then none
    else some ("Dessert: " ++ dessert.id ++ " (" ++ dessert.name ++ ")"))

/-- `CreateUserOrderUseCase.validateItemAvailability`: same shape as the
submit-time validator. -/
def validateItemAvailabilityCreate (items : UserOrderItems)
    (stock : StockAvailability) : Except SvcError Unit :=
  if outOfStockCreate items stock = [] then Except.ok ()
  else Except.error (SvcError.validation "Some items are out of stock"
    (outOfStockCreate items stock))

/-- Payload of a `cartService.addTaco` call issued by the backend
submission loop: the taco's size, its selections (meat quantity kept,
sauce and garniture codes flattened) and the note. -/
structure AddTacoRequest where
  size : String
  meats : List MeatSel
  sauces : List String
  garnitures : List String
  note : Option String
deriving DecidableEq, Repr

/-- One line added to the backend cart by
`GroupOrderService.submitGroupOrderToBackend` (one `addTaco` / `addExtra`
/ `addDrink` / `addDessert` call). -/
inductive CartLine where
  | taco (request : AddTacoRequest)
  | extra (item : SimpleItem)
  | drink (item : SimpleItem)
  | dessert (item : SimpleItem)
deriving DecidableEq, Repr

/-- The cart-add calls issued for the given participant orders, in loop
order: per order all tacos (each repeated `quantity` times), then extras,
drinks and desserts (each repeated `quantity` times). -/
def buildCartLines (orders : List UserOrder) : List CartLine :=
  orders.flatMap fun uo =>
    (uo.items.tacos.flatMap fun taco =>
      List.replicate taco.quantity (CartLine.taco
        ⟨taco.size, taco.meats.map fun m => ⟨m.id, m.quantity⟩,
          taco.sauces.map SauceSel.id, taco.garnitures.map GarnSel.id,
          taco.note⟩)) ++
    (uo.items.extras.flatMap fun extra =>
      List.replicate extra.quantity (CartLine.extra extra)) ++
    (uo.items.drinks.flatMap fun drink =>
      List.replicate drink.quantity (CartLine.drink drink)) ++
    (uo.items.desserts.flatMap fun dessert =>
      List.replicate dessert.quantity (CartLine.dessert dessert))

/-- Result of a `submitGroupOrderToBackend` run: the group order state
after the call (unchanged unless the completion write ran), the outcome
(order id and cart id, or the error), and the lines that were added to the
backend cart (empty when the call was rejected before the cart loop). -/
structure BackendSubmitResult where
  groupOrder : GroupOrder
  result : Except SvcError (String × String)
  shippedLines : List CartLine
deriving Repr

/-- `GroupOrderService.submitGroupOrderToBackend`: verify the caller is
the leader; require stored status SUBMITTED; filter the group's
participant orders to the SUBMITTED ones; reject when none remain; add
every filtered item to a fresh backend cart; create the order through the
external order service; only on its success update the stored status to
COMPLETED.  Repository reads are the `groupOrder`/`userOrders` parameters;
the external phase (cart creation, cart adds and order creation) is the
`external` parameter, a function of the added lines returning the order id
and cart id or a transport error.  Nothing in the source consults a stock
snapshot on this path. -/
def submitGroupOrderToBackend (groupOrder : GroupOrder)
    (userOrders : List UserOrder) (userId : String)
    (external : List CartLine → Except String (String × String)) :
    BackendSubmitResult :=
  if ¬ groupOrder.isLeader userId then
    ⟨groupOrder, Except.error (SvcError.validation
      "Only the group order leader can submit the group order" []), []⟩
  else if groupOrder.status ≠ GroupOrderStatus.SUBMITTED then
    ⟨groupOrder, Except.error (SvcError.validation
      "Group order must be marked as submitted before submitting to backend" []), []⟩
  else
    let submittedOrders := userOrders.filter UserOrder.isSubmitted
    if submittedOrders.isEmpty then
      ⟨groupOrder, Except.error (SvcError.validation
        "No submitted orders to process" []), []⟩
    else
      let lines := buildCartLines submittedOrders
      match external lines with
      | Except.error e =>
          ⟨groupOrder, Except.error (SvcError.validation e []), lines⟩
      | Except.ok (orderId, cartId) =>
          ⟨{ groupOrder with status := GroupOrderStatus.COMPLETED },
            Except.ok (orderId, cartId), lines⟩

/-- Union of the item bags of a list of participant orders (the set of
items a backend submission would ship), used to express the availability
check the spec asks for on the submission path. -/
def unionItems (orders : List UserOrder) : UserOrderItems :=
  ⟨orders.flatMap fun uo => uo.items.tacos,
    orders.flatMap fun uo => uo.items.extras,
    orders.flatMap fun uo => uo.items.drinks,
    orders.flatMap fun uo => uo.items.desserts⟩

/-- Escape for the canonical JSON serialization (`JSON.stringify` on the
normalized record): a quote or backslash character is preceded by a
backslash. -/
def esc : List Char → List Char
  | [] => []
  | c :: cs => if c = '"' ∨ c = '\\' then '\\' :: c :: esc cs else c :: esc cs

/-- Decoder for one escaped, quote-terminated string: reads up to the
first unescaped quote, returning the unescaped content and the rest.
Used only to prove the serialization injective. -/
def parseQ : List Char → Option (List Char × List Char)
  | [] => none
  | c :: cs =>
    if c = '"' then some ([], cs)
    else if c = '\\' then
      match cs with
      | [] => none
      | c2 :: cs2 => (parseQ cs2).map fun p => (c2 :: p.1, p.2)
    else (parseQ cs).map fun p => (c :: p.1, p.2)

/-- A JSON string literal: quoted escaped content. -/
def qstr (s : List Char) : List Char := '"' :: (esc s ++ ['"'])

/-- Comma-separated JSON string literals (the body of a serialized
array). -/
def arrBody : List (List Char) → List Char
  | [] => []
  | [s] => qstr s
  | s :: ss => qstr s ++ ',' :: arrBody ss

/-- Decoder for a serialized array body up to its closing bracket; the
fuel bounds the number of elements.  Used only to prove the serialization
injective. -/
def parseArr : Nat → List Char → Option (List (List Char) × List Char)
  | fuel, input =>
    match input with
    | [] => none
    | c :: cs =>
      if c = ']' then some ([], cs)
      else if c = '"' then
        match parseQ cs with
        | none => none
        | some (item, rest) =>
          match rest with
          | ',' :: r2 =>
            match fuel with
            | 0 => none
            | fuel' + 1 => (parseArr fuel' r2).map fun p => (item :: p.1, p.2)
          | ']' :: r2 => some ([item], r2)
          | _ => none
      else none

/-- The normalized taco record of `normalizeTaco` (`taco-id.ts`): size and
the three selection-code lists sorted lexicographically. -/
structure NormalizedTaco where
  size : String
  meats : List String
  sauces : List String
  garnitures : List String
deriving DecidableEq, Repr

/-- Serialized JSON array of strings. -/
def arrS (l : List String) : List Char :=
  '[' :: (arrBody (l.map String.data) ++ [']'])

/-- `JSON.stringify` of a normalized taco with the source's fixed key
order `{size, meats, sauces, garnitures}`. -/
def tacoJson (nt : NormalizedTaco) : List Char :=
  "\x7b\"size\":".data ++ qstr nt.size.data ++
  ",\"meats\":".data ++ arrS nt.meats ++
  ",\"sauces\":".data ++ arrS nt.sauces ++
  ",\"garnitures\":".data ++ arrS nt.garnitures ++ "\x7d".data

instance : IsAntisymm String (· ≤ ·) := ⟨fun _ _ => le_antisymm⟩

/-- `array.sort((a, b) => a.localeCompare(b))`: lexicographic ascending
sort of string codes. -/
def sortStrings (l : List String) : List String := List.insertionSort (· ≤ ·) l

/-- `normalizeTaco` (`taco-id.ts`): keep the size, project each selection
set to its codes and sort them; meat quantities and the note are not part
of the normalized record. -/
def normalizeTaco (t : TacoItem) : NormalizedTaco :=
  ⟨t.size, sortStrings (t.meats.map MeatSel.id),
    sortStrings (t.sauces.map SauceSel.id),
    sortStrings (t.garnitures.map GarnSel.id)⟩

/-- `generateTacoID` (`taco-id.ts`): SHA-256 hex digest of the canonical
JSON serialization of the normalized taco.  The digest itself is the
abstract parameter `sha256hex`. -/
def generateTacoID (sha256hex : String → String) (t : TacoItem) : String :=
  sha256hex (String.mk (tacoJson (normalizeTaco t)))

/-- Modelled from the spec: `generateTacoDeterministicUUID` from
`utils/deterministic-uuid` is not in the source tree (only its caller
`CreateUserOrderUseCase.assignDeterministicIds` is).  Per the spec's
DeterministicIdentity contract, the identity derives from the canonical
record `{size, sortedComponents, sortedModifiers, sortedToppings}` with
the note text excluded, serialized deterministically and digested; the
argument list mirrors the call site, which passes the note along. -/
def generateTacoDeterministicUUID (digest : String → String) (size : String)
    (meats : List MeatSel) (sauces : List String) (garnitures : List String)
    (note : Option String) : String :=
  digest (String.mk (tacoJson
    ⟨size, sortStrings (meats.map MeatSel.id), sortStrings sauces,
      sortStrings garnitures⟩))

/-- Decimal digit character. -/
def charOfDigit (d : Nat) : Char := Char.ofNat (48 + d)

/-- Fuel-bounded most-significant-first decimal digits. -/
def natReprAux : Nat → Nat → List Char
  | 0, _ => []
  | fuel + 1, n =>
    if n = 0 then [] else natReprAux fuel (n / 10) ++ [charOfDigit (n % 10)]

/-- Decimal representation of a natural number, as produced by
JavaScript's number-to-string conversion for non-negative integers. -/
def natRepr (n : Nat) : List Char :=
  if n = 0 then ['0'] else natReprAux (n + 1) n

/-- Modelled from the spec: `generateItemDeterministicUUID` from
`utils/deterministic-uuid` is not in the source tree (only its caller is).
Per the spec's `Identify(simpleItem, quantity)` contract, the identity is
a digest of the item key and the quantity, serialized
deterministically. -/
def generateItemDeterministicUUID (digest : String → String) (key : String)
    (quantity : Nat) : String :=
  digest (key ++ ":" ++ String.mk (natRepr quantity))

/-- `CreateUserOrderUseCase.assignDeterministicIds`: replace every item id
by its deterministic identifier — tacos through
`generateTacoDeterministicUUID` (the call passes size, meats with
quantities, sauce codes, garniture codes and the note), simple items
through `generateItemDeterministicUUID` on `item.id || item.name` and the
quantity. -/
def assignDeterministicIds (digest : String → String)
    (items : UserOrderItems) : UserOrderItems :=
  { tacos := items.tacos.map (fun taco =>
      { taco with id := (generateTacoDeterministicUUID digest taco.size
          taco.meats (taco.sauces.map SauceSel.id)
          (taco.garnitures.map GarnSel.id) taco.note) }),
    extras := items.extras.map (fun extra =>
      { extra with id := (generateItemDeterministicUUID digest
          (if extra.id = "" then extra.name else extra.id) extra.quantity) }),
    drinks := items.drinks.map (fun drink =>
      { drink with id := (generateItemDeterministicUUID digest
          (if drink.id = "" then drink.name else drink.id) drink.quantity) }),
    desserts := items.desserts.map (fun dessert =>
      { dessert with id := (generateItemDeterministicUUID digest
          (if dessert.id = "" then dessert.name else dessert.id) dessert.quantity) }) }

/-- `CreateUserOrderUseCase.execute`: load the group order (absent →
not-found), reject unless `canBeModified` at call time, assign
deterministic ids, validate availability against a fresh stock snapshot,
then upsert the order with status DRAFT.  Repository state, current time,
stock snapshot and the digest are parameters; the upserted record's
storage key is not modelled (empty id). -/
def createUserOrder (digest : String → String)
    (groupOrder : Option GroupOrder) (now : Int) (stock : StockAvailability)
    (groupOrderId userId : String) (items : UserOrderItems) :
    Except SvcError UserOrder :=
  match groupOrder with
  | none => Except.error (SvcError.notFound "Group order not found")
  | some go =>
    if ¬ go.canBeModified now then
      Except.error (SvcError.validation
        "Cannot modify user order. Group order status" [])
    else
      let itemsWithIds := assignDeterministicIds digest items
      match validateItemAvailabilityCreate itemsWithIds stock with
      | Except.error e => Except.error e
      | Except.ok _ =>
        Except.ok ⟨"", groupOrderId, userId, itemsWithIds, UserOrderStatus.DRAFT⟩

/-- `DeleteUserOrderUseCase.execute`: load the group order (absent →
not-found); the deleter must be the leader or the order's owner; the
user order must exist; deletion is allowed only while the stored status is
OPEN — the source checks `groupOrder.status`, not the date range. -/
def deleteUserOrder (groupOrder : Option GroupOrder)
    (userOrder : Option UserOrder) (userId deleterUserId : String) :
    Except SvcError Unit :=
  match groupOrder with
  | none => Except.error (SvcError.notFound "Group order not found")
  | some go =>
    if ¬ (go.isLeader deleterUserId || userId = deleterUserId) then
      Except.error (SvcError.validation
        "You can only delete your own order or be the leader" [])
    else
      match userOrder with
      | none => Except.error (SvcError.notFound "User order not found")
      | some _ =>
        if go.status ≠ GroupOrderStatus.OPEN then
          Except.error (SvcError.validation
            "Cannot delete user order. Group order status" [])
        else
          Except.ok ()

/-- Splitter at the first underscore; used to show a transaction id
determines its components. -/
def splitU : List Char → Option (List Char × List Char)
  | [] => none
  | c :: cs =>
    if c = '_' then some ([], cs)
    else (splitU cs).map fun p => (c :: p.1, p.2)

/-- The transaction id attached by `TacosApiService.submitOrder`:
`` `${Date.now()}_${Math.random().toString(36).substring(2, 8)}` `` —
the decimal timestamp, an underscore and the random suffix. -/
def transactionId (nowMs : Nat) (randSuffix : String) : String :=
  String.mk (natRepr nowMs ++ '_' :: randSuffix.data)

/-- Customer details for the external submission (`Customer`). -/
structure Customer where
  name : String
  phone : String
deriving DecidableEq, Repr

/-- Delivery details for the external submission (`DeliveryInfo`). -/
structure DeliveryInfo where
  type : String
  address : Option String
  requestedFor : Option String
deriving DecidableEq, Repr

/-- The form fields `submitOrder` appends before posting to the external
endpoint. -/
structure SubmitOrderForm where
  name : String
  phone : String
  confirmPhone : String
  address : Option String
  type : String
  requestedFor : Option String
  transaction_id : String
deriving DecidableEq, Repr

/-- `TacosApiService.submitOrder`: validate that name and phone are
present, generate the transaction id from the current time and a fresh
random suffix (both parameters here), and build the posted form.  The
actual transport call and response parsing are outside the model. -/
def submitOrder (customer : Customer) (delivery : DeliveryInfo)
    (nowMs : Nat) (randSuffix : String) : Except SvcError SubmitOrderForm :=
  if customer.name = "" ∨ customer.phone = "" then
    Except.error (SvcError.validation "Customer name and phone are required" [])
  else
    Except.ok ⟨customer.name, customer.phone, customer.phone, delivery.address,
      delivery.type, delivery.requestedFor, transactionId nowMs randSuffix⟩

/-- C1: for every group order and reference time, the effective status
follows the spec's reference definition — CLOSED/SUBMITTED/COMPLETED are
returned as stored regardless of `now`; a stored-OPEN order is EXPIRED
when `now > endTime` and OPEN when `now ≤ endTime`. -/
theorem effective_status_matches_spec (o : GroupOrder) (now : Int) :
    ((o.status = GroupOrderStatus.CLOSED ∨ o.status = GroupOrderStatus.SUBMITTED ∨
        o.status = GroupOrderStatus.COMPLETED) →
      getEffectiveGroupOrderStatus o now = o.status) ∧
    (o.status = GroupOrderStatus.OPEN →
      (now > o.endDate → getEffectiveGroupOrderStatus o now = GroupOrderStatus.EXPIRED) ∧
      (now ≤ o.endDate → getEffectiveGroupOrderStatus o now = GroupOrderStatus.OPEN)) := by
  unfold getEffectiveGroupOrderStatus
  rcases o with ⟨i, g, l, s, e, st, n⟩
  cases st <;> simp

/-- Witness for C1: concrete evaluations discharging each hypothesis of
`effective_status_matches_spec`. -/
theorem effective_status_matches_spec_witness :
    getEffectiveGroupOrderStatus
        ⟨"g", "g", "lead", 0, 100, GroupOrderStatus.CLOSED, none⟩ 250 =
      GroupOrderStatus.CLOSED ∧
    getEffectiveGroupOrderStatus
        ⟨"g", "g", "lead", 0, 100, GroupOrderStatus.OPEN, none⟩ 250 =
      GroupOrderStatus.EXPIRED ∧
    getEffectiveGroupOrderStatus
        ⟨"g", "g", "lead", 0, 100, GroupOrderStatus.OPEN, none⟩ 50 =
      GroupOrderStatus.OPEN := by
  refine ⟨?_, ?_, ?_⟩
  · exact (effective_status_matches_spec _ 250).1 (Or.inl rfl)
  · exact ((effective_status_matches_spec _ 250).2 rfl).1 (by decide)
  · exact ((effective_status_matches_spec _ 50).2 rfl).2 (by decide)

/-- Counterexample to C2: a leader calling Finalize on a group order whose
effective status is OPEN (stored OPEN, `now ≤ endTime`) is nevertheless
rejected when `now` precedes `startTime`, so "transitions iff leader and
effective status OPEN" fails on the code. -/
theorem submitGroupOrder_not_iff_effective_open :
    getEffectiveGroupOrderStatus
        ⟨"g", "g", "lead", 10, 20, GroupOrderStatus.OPEN, none⟩ 5 =
      GroupOrderStatus.OPEN ∧
    GroupOrder.isLeader
        ⟨"g", "g", "lead", 10, 20, GroupOrderStatus.OPEN, none⟩ "lead" = true ∧
    submitGroupOrder
        ⟨"g", "g", "lead", 10, 20, GroupOrderStatus.OPEN, none⟩ "lead" 5 =
      Except.error (SvcError.validation
        "Cannot submit group order outside of the allowed date range" []) := by
  refine ⟨by decide, by decide, rfl⟩

/-- C2 amended: Finalize transitions the stored status to SUBMITTED iff the
caller is the leader, the stored status is OPEN and `now` lies within
`[startTime, endTime]` (i.e. the caller is the leader and
`canBeModified` holds); in particular a group order whose effective status
is EXPIRED is rejected with a validation error, and rejection returns an
error without producing an updated group order. -/
theorem submitGroupOrder_success_iff (o : GroupOrder) (userId : String) (now : Int) :
    (submitGroupOrder o userId now =
        Except.ok { o with status := GroupOrderStatus.SUBMITTED } ↔
      o.isLeader userId = true ∧ o.canBeModified now = true) ∧
    (getEffectiveGroupOrderStatus o now = GroupOrderStatus.EXPIRED →
      ∃ msg details, submitGroupOrder o userId now =
        Except.error (SvcError.validation msg details)) := by
  constructor
  · unfold submitGroupOrder GroupOrder.canBeModified GroupOrder.isOpenForOrders
    by_cases hl : o.isLeader userId = true <;>
      by_cases hs : o.status = GroupOrderStatus.OPEN <;>
        by_cases h1 : o.startDate ≤ now <;>
          by_cases h2 : now ≤ o.endDate <;>
            simp [hl, hs, h1, h2]
  · intro he
    unfold submitGroupOrder
    by_cases hl : o.isLeader userId = true
    · by_cases hs : o.status = GroupOrderStatus.OPEN
      · have hend : ¬ (now ≤ o.endDate) := by
          intro h2
          have hnot : ¬ (now > o.endDate) := by omega
          unfold getEffectiveGroupOrderStatus at he
          simp [hs, hnot] at he
        have hopen : o.isOpenForOrders now = false := by
          unfold GroupOrder.isOpenForOrders
          simp [hs]
          intro _
          omega
        refine ⟨"Cannot submit group order outside of the allowed date range", [], ?_⟩
        simp [hl, hs, hopen]
      · refine ⟨"Cannot submit group order. Current status", [], ?_⟩
        simp [hl, hs]
    · refine ⟨"Only the group order leader can submit the group order", [], ?_⟩
      simp [hl]

/-- Witness for C2 amended: a leader finalizing inside the window succeeds
(via the iff), and finalizing an expired order is rejected with a
validation error. -/
theorem submitGroupOrder_success_iff_witness :
    submitGroupOrder
        ⟨"g", "g", "lead", 10, 20, GroupOrderStatus.OPEN, none⟩ "lead" 15 =
      Except.ok ⟨"g", "g", "lead", 10, 20, GroupOrderStatus.SUBMITTED, none⟩ ∧
    ∃ msg details,
      submitGroupOrder
          ⟨"g", "g", "lead", 10, 20, GroupOrderStatus.OPEN, none⟩ "lead" 25 =
        Except.error (SvcError.validation msg details) := by
  constructor
  · exact (submitGroupOrder_success_iff _ "lead" 15).1.mpr ⟨by decide, by decide⟩
  · exact (submitGroupOrder_success_iff _ "lead" 25).2 (by decide)

/-- C3: if the external submission fails, the group order is left exactly
as it was (in particular a SUBMITTED order stays SUBMITTED, so the leader
can retry), and when the stored status was SUBMITTED the status becomes
COMPLETED iff the overall call returned success. -/
theorem backend_failure_keeps_status (groupOrder : GroupOrder)
    (userOrders : List UserOrder) (userId : String)
    (external : List CartLine → Except String (String × String)) :
    (∀ e, (submitGroupOrderToBackend groupOrder userOrders userId external).result =
        Except.error e →
      (submitGroupOrderToBackend groupOrder userOrders userId external).groupOrder =
        groupOrder) ∧
    (groupOrder.status = GroupOrderStatus.SUBMITTED →
      ((submitGroupOrderToBackend groupOrder userOrders userId external).groupOrder.status =
          GroupOrderStatus.COMPLETED ↔
        ∃ ids, (submitGroupOrderToBackend groupOrder userOrders userId external).result =
          Except.ok ids)) := by
  unfold submitGroupOrderToBackend
  by_cases hl : groupOrder.isLeader userId = true
  · by_cases hs : groupOrder.status = GroupOrderStatus.SUBMITTED
    · by_cases he : (userOrders.filter UserOrder.isSubmitted).isEmpty
      · simp [hl, hs, he]
      · rcases hext : external (buildCartLines (userOrders.filter UserOrder.isSubmitted)) with
          e | ⟨orderId, cartId⟩
        · simp [hl, hs, he, hext]
        · simp [hl, hs, he, hext]
    · simp [hl, hs]
  · simp [hl]
    intro h
    rw [h]
    decide

/-- Witness for C3: with a failing external client the group order stays
SUBMITTED; with a succeeding one the status becomes COMPLETED. -/
theorem backend_failure_keeps_status_witness :
    (submitGroupOrderToBackend
        ⟨"g", "g", "lead", 0, 100, GroupOrderStatus.SUBMITTED, none⟩
        [⟨"u1", "g", "alice", ⟨[], [⟨"e1", "Nachos", 1⟩], [], []⟩,
          UserOrderStatus.SUBMITTED⟩]
        "lead" (fun _ => Except.error "backend down")).groupOrder =
      ⟨"g", "g", "lead", 0, 100, GroupOrderStatus.SUBMITTED, none⟩ ∧
    ((submitGroupOrderToBackend
        ⟨"g", "g", "lead", 0, 100, GroupOrderStatus.SUBMITTED, none⟩
        [⟨"u1", "g", "alice", ⟨[], [⟨"e1", "Nachos", 1⟩], [], []⟩,
          UserOrderStatus.SUBMITTED⟩]
        "lead" (fun _ => Except.ok ("o42", "c7"))).groupOrder.status =
      GroupOrderStatus.COMPLETED) := by
  constructor
  · exact (backend_failure_keeps_status _ _ "lead" _).1
      (SvcError.validation "backend down" []) rfl
  · exact ((backend_failure_keeps_status _ _ "lead" _).2 rfl).mpr ⟨("o42", "c7"), rfl⟩

/-- Membership helper: an out-of-stock meat of some taco appears in the
`outOfStockSubmit` list. -/
theorem outOfStockSubmit_mem_meat {items : UserOrderItems} {stock : StockAvailability}
    {taco : TacoItem} {meat : MeatSel}
    (ht : taco ∈ items.tacos) (hx : meat ∈ taco.meats)
    (hs : stockOk stock.viandes meat.id = false) :
    ("Meat: " ++ meat.id) ∈ outOfStockSubmit items stock := by
  unfold outOfStockSubmit
  refine List.mem_append.mpr (Or.inl (List.mem_append.mpr (Or.inl (List.mem_append.mpr (Or.inl ?_)))))
  refine List.mem_flatMap.mpr ⟨taco, ht, ?_⟩
  refine List.mem_append.mpr (Or.inl (List.mem_append.mpr (Or.inl ?_)))
  refine List.mem_filterMap.mpr ⟨meat, hx, ?_⟩
  simp [hs]

/-- Membership helper: an out-of-stock sauce of some taco appears in the
`outOfStockSubmit` list. -/
theorem outOfStockSubmit_mem_sauce {items : UserOrderItems} {stock : StockAvailability}
    {taco : TacoItem} {sauce : SauceSel}
    (ht : taco ∈ items.tacos) (hx : sauce ∈ taco.sauces)
    (hs : stockOk stock.sauces sauce.id = false) :
    ("Sauce: " ++ sauce.id) ∈ outOfStockSubmit items stock := by
  unfold outOfStockSubmit
  refine List.mem_append.mpr (Or.inl (List.mem_append.mpr (Or.inl (List.mem_append.mpr (Or.inl ?_)))))
  refine List.mem_flatMap.mpr ⟨taco, ht, ?_⟩
  refine List.mem_append.mpr (Or.inl (List.mem_append.mpr (Or.inr ?_)))
  refine List.mem_filterMap.mpr ⟨sauce, hx, ?_⟩
  simp [hs]

/-- Membership helper: an out-of-stock garniture of some taco appears in the
`outOfStockSubmit` list. -/
theorem outOfStockSubmit_mem_garniture {items : UserOrderItems} {stock : StockAvailability}
    {taco : TacoItem} {garniture : GarnSel}
    (ht : taco ∈ items.tacos) (hx : garniture ∈ taco.garnitures)
    (hs : stockOk stock.garnitures garniture.id = false) :
    ("Garniture: " ++ garniture.id) ∈ outOfStockSubmit items stock := by
  unfold outOfStockSubmit
  refine List.mem_append.mpr (Or.inl (List.mem_append.mpr (Or.inl (List.mem_append.mpr (Or.inl ?_)))))
  refine List.mem_flatMap.mpr ⟨taco, ht, ?_⟩
  refine List.mem_append.mpr (Or.inr ?_)
  refine List.mem_filterMap.mpr ⟨garniture, hx, ?_⟩
  simp [hs]

/-- Membership helper: an out-of-stock extra appears in the `outOfStockSubmit` list. -/
theorem outOfStockSubmit_mem_extra {items : UserOrderItems} {stock : StockAvailability}
    {extra : SimpleItem}
    (hx : extra ∈ items.extras)
    (hs : stockOk stock.extras extra.id = false) :
    ("Extra: " ++ extra.id) ∈ outOfStockSubmit items stock := by
  unfold outOfStockSubmit
  refine List.mem_append.mpr (Or.inl (List.mem_append.mpr (Or.inl (List.mem_append.mpr (Or.inr ?_)))))
  refine List.mem_filterMap.mpr ⟨extra, hx, ?_⟩
  simp [hs]

/-- Membership helper: an out-of-stock drink appears in the `outOfStockSubmit` list. -/
theorem outOfStockSubmit_mem_drink {items : UserOrderItems} {stock : StockAvailability}
    {drink : SimpleItem}
    (hx : drink ∈ items.drinks)
    (hs : stockOk stock.boissons drink.id = false) :
    ("Drink: " ++ drink.id) ∈ outOfStockSubmit items stock := by
  unfold outOfStockSubmit
  refine List.mem_append.mpr (Or.inl (List.mem_append.mpr (Or.inr ?_)))
  refine List.mem_filterMap.mpr ⟨drink, hx, ?_⟩
  simp [hs]

/-- Membership helper: an out-of-stock dessert appears in the `outOfStockSubmit` list. -/
theorem outOfStockSubmit_mem_dessert {items : UserOrderItems} {stock : StockAvailability}
    {dessert : SimpleItem}
    (hx : dessert ∈ items.desserts)
    (hs : stockOk stock.desserts dessert.id = false) :
    ("Dessert: " ++ dessert.id) ∈ outOfStockSubmit items stock := by
  unfold outOfStockSubmit
  refine List.mem_append.mpr (Or.inr ?_)
  refine List.mem_filterMap.mpr ⟨dessert, hx, ?_⟩
  simp [hs]

/-- Membership helper: an out-of-stock meat of some taco appears in the
`outOfStockCreate` list. -/
theorem outOfStockCreate_mem_meat {items : UserOrderItems} {stock : StockAvailability}
    {taco : TacoItem} {meat : MeatSel}
    (ht : taco ∈ items.tacos) (hx : meat ∈ taco.meats)
    (hs : stockOk stock.viandes meat.id = false) :
    ("Meat: " ++ meat.id ++ " (" ++ meat.id ++ ")") ∈ outOfStockCreate items stock := by
  unfold outOfStockCreate
  refine List.mem_append.mpr (Or.inl (List.mem_append.mpr (Or.inl (List.mem_append.mpr (Or.inl ?_)))))
  refine List.mem_flatMap.mpr ⟨taco, ht, ?_⟩
  refine List.mem_append.mpr (Or.inl (List.mem_append.mpr (Or.inl ?_)))
  refine List.mem_filterMap.mpr ⟨meat, hx, ?_⟩
  simp [hs]

/-- Membership helper: an out-of-stock sauce of some taco appears in the
`outOfStockCreate` list. -/
theorem outOfStockCreate_mem_sauce {items : UserOrderItems} {stock : StockAvailability}
    {taco : TacoItem} {sauce : SauceSel}
    (ht : taco ∈ items.tacos) (hx : sauce ∈ taco.sauces)
    (hs : stockOk stock.sauces sauce.id = false) :
    ("Sauce: " ++ sauce.id ++ " (" ++ sauce.id ++ ")") ∈ outOfStockCreate items stock := by
  unfold outOfStockCreate
  refine List.mem_append.mpr (Or.inl (List.mem_append.mpr (Or.inl (List.mem_append.mpr (Or.inl ?_)))))
  refine List.mem_flatMap.mpr ⟨taco, ht, ?_⟩
  refine List.mem_append.mpr (Or.inl (List.mem_append.mpr (Or.inr ?_)))
  refine List.mem_filterMap.mpr ⟨sauce, hx, ?_⟩
  simp [hs]

/-- Membership helper: an out-of-stock garniture of some taco appears in the
`outOfStockCreate` list. -/
theorem outOfStockCreate_mem_garniture {items : UserOrderItems} {stock : StockAvailability}
    {taco : TacoItem} {garniture : GarnSel}
    (ht : taco ∈ items.tacos) (hx : garniture ∈ taco.garnitures)
    (hs : stockOk stock.garnitures garniture.id = false) :
    ("Garniture: " ++ garniture.id ++ " (" ++ garniture.id ++ ")") ∈ outOfStockCreate items stock := by
  unfold outOfStockCreate
  refine List.mem_append.mpr (Or.inl (List.mem_append.mpr (Or.inl (List.mem_append.mpr (Or.inl ?_)))))
  refine List.mem_flatMap.mpr ⟨taco, ht, ?_⟩
  refine List.mem_append.mpr (Or.inr ?_)
  refine List.mem_filterMap.mpr ⟨garniture, hx, ?_⟩
  simp [hs]

/-- Membership helper: an out-of-stock extra appears in the `outOfStockCreate` list. -/
theorem outOfStockCreate_mem_extra {items : UserOrderItems} {stock : StockAvailability}
    {extra : SimpleItem}
    (hx : extra ∈ items.extras)
    (hs : stockOk stock.extras extra.id = false) :
    ("Extra: " ++ extra.id ++ " (" ++ extra.name ++ ")") ∈ outOfStockCreate items stock := by
  unfold outOfStockCreate
  refine List.mem_append.mpr (Or.inl (List.mem_append.mpr (Or.inl (List.mem_append.mpr (Or.inr ?_)))))
  refine List.mem_filterMap.mpr ⟨extra, hx, ?_⟩
  simp [hs]

/-- Membership helper: an out-of-stock drink appears in the `outOfStockCreate` list. -/
theorem outOfStockCreate_mem_drink {items : UserOrderItems} {stock : StockAvailability}
    {drink : SimpleItem}
    (hx : drink ∈ items.drinks)
    (hs : stockOk stock.boissons drink.id = false) :
    ("Drink: " ++ drink.id ++ " (" ++ drink.name ++ ")") ∈ outOfStockCreate items stock := by
  unfold outOfStockCreate
  refine List.mem_append.mpr (Or.inl (List.mem_append.mpr (Or.inr ?_)))
  refine List.mem_filterMap.mpr ⟨drink, hx, ?_⟩
  simp [hs]

/-- Membership helper: an out-of-stock dessert appears in the `outOfStockCreate` list. -/
theorem outOfStockCreate_mem_dessert {items : UserOrderItems} {stock : StockAvailability}
    {dessert : SimpleItem}
    (hx : dessert ∈ items.desserts)
    (hs : stockOk stock.desserts dessert.id = false) :
    ("Dessert: " ++ dessert.id ++ " (" ++ dessert.name ++ ")") ∈ outOfStockCreate items stock := by
  unfold outOfStockCreate
  refine List.mem_append.mpr (Or.inr ?_)
  refine List.mem_filterMap.mpr ⟨dessert, hx, ?_⟩
  simp [hs]

/-- C7: whenever availability validation fails, the reported out-of-stock
list contains every unavailable code across all line items, all four
categories and all sub-selections of a taco — the check collects the
complete list (for both the submit-time and the create/update-time
validator) and only then fails, reporting the full collected list. -/
theorem availability_collects_all_unavailable (items : UserOrderItems)
    (stock : StockAvailability) :
    (∀ taco ∈ items.tacos,
      (∀ meat ∈ taco.meats, stockOk stock.viandes meat.id = false →
        ("Meat: " ++ meat.id) ∈ outOfStockSubmit items stock ∧
        ("Meat: " ++ meat.id ++ " (" ++ meat.id ++ ")") ∈ outOfStockCreate items stock) ∧
      (∀ sauce ∈ taco.sauces, stockOk stock.sauces sauce.id = false →
        ("Sauce: " ++ sauce.id) ∈ outOfStockSubmit items stock ∧
        ("Sauce: " ++ sauce.id ++ " (" ++ sauce.id ++ ")") ∈ outOfStockCreate items stock) ∧
      (∀ garniture ∈ taco.garnitures, stockOk stock.garnitures garniture.id = false →
        ("Garniture: " ++ garniture.id) ∈ outOfStockSubmit items stock ∧
        ("Garniture: " ++ garniture.id ++ " (" ++ garniture.id ++ ")") ∈
          outOfStockCreate items stock)) ∧
    (∀ extra ∈ items.extras, stockOk stock.extras extra.id = false →
      ("Extra: " ++ extra.id) ∈ outOfStockSubmit items stock ∧
      ("Extra: " ++ extra.id ++ " (" ++ extra.name ++ ")") ∈ outOfStockCreate items stock) ∧
    (∀ drink ∈ items.drinks, stockOk stock.boissons drink.id = false →
      ("Drink: " ++ drink.id) ∈ outOfStockSubmit items stock ∧
      ("Drink: " ++ drink.id ++ " (" ++ drink.name ++ ")") ∈ outOfStockCreate items stock) ∧
    (∀ dessert ∈ items.desserts, stockOk stock.desserts dessert.id = false →
      ("Dessert: " ++ dessert.id) ∈ outOfStockSubmit items stock ∧
      ("Dessert: " ++ dessert.id ++ " (" ++ dessert.name ++ ")") ∈
        outOfStockCreate items stock) ∧
    (outOfStockSubmit items stock ≠ [] →
      validateItemAvailabilitySubmit items stock =
        Except.error (SvcError.validation "Some items are out of stock"
          (outOfStockSubmit items stock))) ∧
    (outOfStockCreate items stock ≠ [] →
      validateItemAvailabilityCreate items stock =
        Except.error (SvcError.validation "Some items are out of stock"
          (outOfStockCreate items stock))) := by
  refine ⟨?_, ?_, ?_, ?_, ?_, ?_⟩
  · intro taco ht
    exact ⟨fun meat hm hs =>
        ⟨outOfStockSubmit_mem_meat ht hm hs, outOfStockCreate_mem_meat ht hm hs⟩,
      fun sauce hm hs =>
        ⟨outOfStockSubmit_mem_sauce ht hm hs, outOfStockCreate_mem_sauce ht hm hs⟩,
      fun garniture hm hs =>
        ⟨outOfStockSubmit_mem_garniture ht hm hs, outOfStockCreate_mem_garniture ht hm hs⟩⟩
  · exact fun extra hx hs =>
      ⟨outOfStockSubmit_mem_extra hx hs, outOfStockCreate_mem_extra hx hs⟩
  · exact fun drink hx hs =>
      ⟨outOfStockSubmit_mem_drink hx hs, outOfStockCreate_mem_drink hx hs⟩
  · exact fun dessert hx hs =>
      ⟨outOfStockSubmit_mem_dessert hx hs, outOfStockCreate_mem_dessert hx hs⟩
  · intro hne
    unfold validateItemAvailabilitySubmit
    simp [hne]
  · intro hne
    unfold validateItemAvailabilityCreate
    simp [hne]

/-- Witness for C7: two simultaneously out-of-stock sauces both appear in
the reported list, and the submit-time validator fails with the full
two-element list. -/
theorem availability_collects_all_unavailable_witness :
    ("Sauce: sa") ∈ outOfStockSubmit
        ⟨[⟨"t1", "tacos_L", [⟨"m1", 1⟩], [⟨"sa"⟩, ⟨"sb"⟩], [], none, 1⟩], [], [], []⟩
        ⟨fun _ => some ⟨true⟩, fun _ => none, fun _ => some ⟨true⟩,
          fun _ => some ⟨true⟩, fun _ => some ⟨true⟩, fun _ => some ⟨true⟩⟩ ∧
    ("Sauce: sb") ∈ outOfStockSubmit
        ⟨[⟨"t1", "tacos_L", [⟨"m1", 1⟩], [⟨"sa"⟩, ⟨"sb"⟩], [], none, 1⟩], [], [], []⟩
        ⟨fun _ => some ⟨true⟩, fun _ => none, fun _ => some ⟨true⟩,
          fun _ => some ⟨true⟩, fun _ => some ⟨true⟩, fun _ => some ⟨true⟩⟩ ∧
    validateItemAvailabilitySubmit
        ⟨[⟨"t1", "tacos_L", [⟨"m1", 1⟩], [⟨"sa"⟩, ⟨"sb"⟩], [], none, 1⟩], [], [], []⟩
        ⟨fun _ => some ⟨true⟩, fun _ => none, fun _ => some ⟨true⟩,
          fun _ => some ⟨true⟩, fun _ => some ⟨true⟩, fun _ => some ⟨true⟩⟩ =
      Except.error (SvcError.validation "Some items are out of stock"
        (outOfStockSubmit
          ⟨[⟨"t1", "tacos_L", [⟨"m1", 1⟩], [⟨"sa"⟩, ⟨"sb"⟩], [], none, 1⟩], [], [], []⟩
          ⟨fun _ => some ⟨true⟩, fun _ => none, fun _ => some ⟨true⟩,
            fun _ => some ⟨true⟩, fun _ => some ⟨true⟩, fun _ => some ⟨true⟩⟩)) := by
  have h := availability_collects_all_unavailable
    ⟨[⟨"t1", "tacos_L", [⟨"m1", 1⟩], [⟨"sa"⟩, ⟨"sb"⟩], [], none, 1⟩], [], [], []⟩
    ⟨fun _ => some ⟨true⟩, fun _ => none, fun _ => some ⟨true⟩,
      fun _ => some ⟨true⟩, fun _ => some ⟨true⟩, fun _ => some ⟨true⟩⟩
  refine ⟨?_, ?_, ?_⟩
  · exact ((h.1 ⟨"t1", "tacos_L", [⟨"m1", 1⟩], [⟨"sa"⟩, ⟨"sb"⟩], [], none, 1⟩
      (by simp)).2.1 ⟨"sa"⟩ (by simp) rfl).1
  · exact ((h.1 ⟨"t1", "tacos_L", [⟨"m1", 1⟩], [⟨"sa"⟩, ⟨"sb"⟩], [], none, 1⟩
      (by simp)).2.1 ⟨"sb"⟩ (by simp) rfl).1
  · exact h.2.2.2.2.1 (by decide)

/-- C6: `submitGroupOrderToBackend` requires the stored status to be
SUBMITTED, rejects with the nothing-to-submit validation error when no
participant order has status SUBMITTED, and otherwise ships exactly the
items of the SUBMITTED participant orders (DRAFT orders are silently
excluded from the basket). -/
theorem backend_ships_submitted_orders (groupOrder : GroupOrder)
    (userOrders : List UserOrder) (userId : String)
    (external : List CartLine → Except String (String × String)) :
    (groupOrder.isLeader userId = true →
      groupOrder.status ≠ GroupOrderStatus.SUBMITTED →
      (submitGroupOrderToBackend groupOrder userOrders userId external).result =
        Except.error (SvcError.validation
          "Group order must be marked as submitted before submitting to backend" [])) ∧
    (groupOrder.isLeader userId = true →
      groupOrder.status = GroupOrderStatus.SUBMITTED →
      userOrders.filter UserOrder.isSubmitted = [] →
      (submitGroupOrderToBackend groupOrder userOrders userId external).result =
        Except.error (SvcError.validation "No submitted orders to process" [])) ∧
    (groupOrder.isLeader userId = true →
      groupOrder.status = GroupOrderStatus.SUBMITTED →
      userOrders.filter UserOrder.isSubmitted ≠ [] →
      (submitGroupOrderToBackend groupOrder userOrders userId external).shippedLines =
        buildCartLines (userOrders.filter UserOrder.isSubmitted)) := by
  refine ⟨?_, ?_, ?_⟩
  · intro hl hs
    unfold submitGroupOrderToBackend
    simp [hl, hs]
  · intro hl hs hf
    unfold submitGroupOrderToBackend
    simp [hl, hs, hf]
  · intro hl hs hf
    unfold submitGroupOrderToBackend
    rcases hext : external (buildCartLines (userOrders.filter UserOrder.isSubmitted)) with
      e | ⟨orderId, cartId⟩ <;>
      simp [hl, hs, List.isEmpty_iff, hf, hext]

/-- Witness for C6: two SUBMITTED participant orders are both shipped, a
DRAFT one is excluded without an error, and a group with only DRAFT orders
is rejected with the nothing-to-submit error. -/
theorem backend_ships_submitted_orders_witness :
    (submitGroupOrderToBackend
        ⟨"g", "g", "lead", 0, 100, GroupOrderStatus.SUBMITTED, none⟩
        [⟨"u1", "g", "alice", ⟨[], [⟨"e1", "Nachos", 1⟩], [], []⟩,
            UserOrderStatus.SUBMITTED⟩,
          ⟨"u2", "g", "bob", ⟨[], [], [⟨"d1", "Cola", 2⟩], []⟩,
            UserOrderStatus.SUBMITTED⟩,
          ⟨"u3", "g", "carol", ⟨[], [], [], [⟨"s1", "Tiramisu", 1⟩]⟩,
            UserOrderStatus.DRAFT⟩]
        "lead" (fun _ => Except.ok ("o1", "c1"))).shippedLines =
      [CartLine.extra ⟨"e1", "Nachos", 1⟩, CartLine.drink ⟨"d1", "Cola", 2⟩,
        CartLine.drink ⟨"d1", "Cola", 2⟩] ∧
    (submitGroupOrderToBackend
        ⟨"g", "g", "lead", 0, 100, GroupOrderStatus.SUBMITTED, none⟩
        [⟨"u3", "g", "carol", ⟨[], [], [], [⟨"s1", "Tiramisu", 1⟩]⟩,
          UserOrderStatus.DRAFT⟩]
        "lead" (fun _ => Except.ok ("o1", "c1"))).result =
      Except.error (SvcError.validation "No submitted orders to process" []) := by
  constructor
  · have h := (backend_ships_submitted_orders
      ⟨"g", "g", "lead", 0, 100, GroupOrderStatus.SUBMITTED, none⟩
      [⟨"u1", "g", "alice", ⟨[], [⟨"e1", "Nachos", 1⟩], [], []⟩,
          UserOrderStatus.SUBMITTED⟩,
        ⟨"u2", "g", "bob", ⟨[], [], [⟨"d1", "Cola", 2⟩], []⟩,
          UserOrderStatus.SUBMITTED⟩,
        ⟨"u3", "g", "carol", ⟨[], [], [], [⟨"s1", "Tiramisu", 1⟩]⟩,
          UserOrderStatus.DRAFT⟩]
      "lead" (fun _ => Except.ok ("o1", "c1"))).2.2 rfl rfl (by decide)
    rw [h]
    decide
  · exact (backend_ships_submitted_orders
      ⟨"g", "g", "lead", 0, 100, GroupOrderStatus.SUBMITTED, none⟩
      [⟨"u3", "g", "carol", ⟨[], [], [], [⟨"s1", "Tiramisu", 1⟩]⟩,
        UserOrderStatus.DRAFT⟩]
      "lead" (fun _ => Except.ok ("o1", "c1"))).2.1 rfl rfl (by decide)

/-- Counterexample to C5: a group order whose single SUBMITTED participant
order contains a taco with an out-of-stock sauce (the fresh stock snapshot
reports `sx` unavailable, so the availability validator would fail) is
nevertheless submitted successfully, and the basket containing the stale
item is shipped: `submitGroupOrderToBackend` never consults a stock
snapshot. -/
theorem backend_ships_unavailable_item :
    outOfStockSubmit
        (unionItems (List.filter UserOrder.isSubmitted
          [⟨"u1", "g", "alice",
            ⟨[⟨"t1", "tacos_L", [⟨"m1", 1⟩], [⟨"sx"⟩], [], none, 1⟩], [], [], []⟩,
            UserOrderStatus.SUBMITTED⟩]))
        ⟨fun _ => some ⟨true⟩, fun _ => some ⟨false⟩, fun _ => some ⟨true⟩,
          fun _ => some ⟨true⟩, fun _ => some ⟨true⟩, fun _ => some ⟨true⟩⟩ =
      ["Sauce: sx"] ∧
    (submitGroupOrderToBackend
        ⟨"g", "g", "lead", 0, 100, GroupOrderStatus.SUBMITTED, none⟩
        [⟨"u1", "g", "alice",
          ⟨[⟨"t1", "tacos_L", [⟨"m1", 1⟩], [⟨"sx"⟩], [], none, 1⟩], [], [], []⟩,
          UserOrderStatus.SUBMITTED⟩]
        "lead" (fun _ => Except.ok ("o9", "c9"))).result =
      Except.ok ("o9", "c9") ∧
    CartLine.taco ⟨"tacos_L", [⟨"m1", 1⟩], ["sx"], [], none⟩ ∈
      (submitGroupOrderToBackend
        ⟨"g", "g", "lead", 0, 100, GroupOrderStatus.SUBMITTED, none⟩
        [⟨"u1", "g", "alice",
          ⟨[⟨"t1", "tacos_L", [⟨"m1", 1⟩], [⟨"sx"⟩], [], none, 1⟩], [], [], []⟩,
          UserOrderStatus.SUBMITTED⟩]
        "lead" (fun _ => Except.ok ("o9", "c9"))).shippedLines := by
  refine ⟨by decide, rfl, by decide⟩

/-- C5 amended: availability is validated when a participant creates,
updates or submits their order, but `submitGroupOrderToBackend` performs
no availability re-check: whenever the leader/status/non-empty guards
pass and the external call succeeds, the submission succeeds and ships
every filtered item even if the submit-time availability validator would
report out-of-stock codes against the current stock snapshot. -/
theorem backend_submit_ignores_stock (groupOrder : GroupOrder)
    (userOrders : List UserOrder) (userId : String)
    (external : List CartLine → Except String (String × String))
    (stock : StockAvailability) (ids : String × String)
    (hl : groupOrder.isLeader userId = true)
    (hs : groupOrder.status = GroupOrderStatus.SUBMITTED)
    (hf : userOrders.filter UserOrder.isSubmitted ≠ [])
    (hoos : outOfStockSubmit (unionItems (userOrders.filter UserOrder.isSubmitted))
      stock ≠ [])
    (hext : external (buildCartLines (userOrders.filter UserOrder.isSubmitted)) =
      Except.ok ids) :
    (submitGroupOrderToBackend groupOrder userOrders userId external).result =
      Except.ok ids ∧
    (submitGroupOrderToBackend groupOrder userOrders userId external).shippedLines =
      buildCartLines (userOrders.filter UserOrder.isSubmitted) := by
  unfold submitGroupOrderToBackend
  rcases ids with ⟨orderId, cartId⟩
  simp [hl, hs, List.isEmpty_iff, hf, hext]

/-- Witness for C5 amended: a concrete run with an out-of-stock dessert
still succeeds and ships the dessert line. -/
theorem backend_submit_ignores_stock_witness :
    (submitGroupOrderToBackend
        ⟨"g", "g", "lead", 0, 100, GroupOrderStatus.SUBMITTED, none⟩
        [⟨"u2", "g", "bob", ⟨[], [], [], [⟨"d9", "Flan", 1⟩]⟩,
          UserOrderStatus.SUBMITTED⟩]
        "lead" (fun _ => Except.ok ("o3", "c3"))).result =
      Except.ok ("o3", "c3") ∧
    (submitGroupOrderToBackend
        ⟨"g", "g", "lead", 0, 100, GroupOrderStatus.SUBMITTED, none⟩
        [⟨"u2", "g", "bob", ⟨[], [], [], [⟨"d9", "Flan", 1⟩]⟩,
          UserOrderStatus.SUBMITTED⟩]
        "lead" (fun _ => Except.ok ("o3", "c3"))).shippedLines =
      buildCartLines (List.filter UserOrder.isSubmitted
        [⟨"u2", "g", "bob", ⟨[], [], [], [⟨"d9", "Flan", 1⟩]⟩,
          UserOrderStatus.SUBMITTED⟩]) := by
  exact backend_submit_ignores_stock
    ⟨"g", "g", "lead", 0, 100, GroupOrderStatus.SUBMITTED, none⟩
    [⟨"u2", "g", "bob", ⟨[], [], [], [⟨"d9", "Flan", 1⟩]⟩,
      UserOrderStatus.SUBMITTED⟩]
    "lead" (fun _ => Except.ok ("o3", "c3"))
    ⟨fun _ => some ⟨true⟩, fun _ => some ⟨true⟩, fun _ => some ⟨true⟩,
      fun _ => some ⟨false⟩, fun _ => some ⟨true⟩, fun _ => some ⟨true⟩⟩
    ("o3", "c3") rfl rfl (by decide) (by decide) rfl

/-- `parseQ` decodes what `esc` encoded, for any continuation after the
closing quote. -/
theorem parseQ_esc (s : List Char) : ∀ r, parseQ (esc s ++ '"' :: r) = some (s, r) := by
  induction s with
  | nil =>
    intro r
    rw [esc, List.nil_append, parseQ.eq_def]
    simp
  | cons c cs ih =>
    intro r
    by_cases h : c = '"' ∨ c = '\\'
    · rw [esc, if_pos h, List.cons_append, List.cons_append, parseQ.eq_def]
      simp [ih r]
    · rw [esc, if_neg h, List.cons_append, parseQ.eq_def]
      push_neg at h
      simp [h.1, h.2, ih r]

/-- A quote-terminated escaped chunk determines its content and the
continuation. -/
theorem esc_append_quote_inj {a b ra rb : List Char}
    (h : esc a ++ '"' :: ra = esc b ++ '"' :: rb) : a = b ∧ ra = rb := by
  have := (parseQ_esc a ra).symm.trans (h ▸ parseQ_esc b rb)
  simp at this
  exact this

/-- `parseArr` decodes what `arrBody` encoded, given enough fuel. -/
theorem parseArr_arrBody (l : List (List Char)) :
    ∀ (fuel : Nat) (r : List Char), l.length ≤ fuel →
      parseArr fuel (arrBody l ++ ']' :: r) = some (l, r) := by
  induction l with
  | nil =>
    intro fuel r _
    rw [arrBody, List.nil_append, parseArr.eq_def]
    simp
  | cons s ss ih =>
    intro fuel r hlen
    cases ss with
    | nil =>
      rw [arrBody, qstr, List.cons_append, parseArr.eq_def]
      simp [List.append_assoc, parseQ_esc]
    | cons t ts =>
      obtain ⟨f, rfl⟩ : ∃ f, fuel = f + 1 := ⟨fuel - 1, by simp at hlen; omega⟩
      have hstep := ih f r (by simp at hlen ⊢; omega)
      rw [arrBody, qstr, List.cons_append, parseArr.eq_def]
      simp only [List.append_assoc, List.cons_append, List.singleton_append]
      simp [parseQ_esc, hstep]
      exact fun h => List.cons_ne_nil t ts h

/-- A serialized array body followed by its closing bracket determines
the element list and the continuation. -/
theorem arrBody_append_inj {la lb : List (List Char)} {ra rb : List Char}
    (h : arrBody la ++ ']' :: ra = arrBody lb ++ ']' :: rb) : la = lb ∧ ra = rb := by
  have ha := parseArr_arrBody la (la.length + lb.length) ra (by omega)
  have hb := parseArr_arrBody lb (la.length + lb.length) rb (by omega)
  have := ha.symm.trans (h ▸ hb)
  simp at this
  exact this

/-- Two strings with the same character data are equal. -/
theorem stringData_inj {a b : String} (h : a.data = b.data) : a = b := by
  cases a
  cases b
  exact congrArg String.mk h

/-- Projecting a string list to character data is injective. -/
theorem mapData_inj {a b : List String} (h : a.map String.data = b.map String.data) :
    a = b :=
  List.map_injective_iff.mpr (fun _ _ => stringData_inj) h

/-- The canonical JSON serialization of a normalized taco is injective:
equal serializations come from equal records. -/
theorem tacoJson_inj {a b : NormalizedTaco} (h : tacoJson a = tacoJson b) : a = b := by
  obtain ⟨sa, ma, sca, ga⟩ := a
  obtain ⟨sb, mb, scb, gb⟩ := b
  unfold tacoJson arrS qstr at h
  simp only [List.append_assoc, List.cons_append, List.singleton_append] at h
  simp at h
  obtain ⟨h1, h2⟩ := esc_append_quote_inj h
  simp at h2
  obtain ⟨h3, h4⟩ := arrBody_append_inj h2
  simp at h4
  obtain ⟨h5, h6⟩ := arrBody_append_inj h4
  simp at h6
  have h6' : arrBody (List.map String.data ga) ++ ']' :: [] =
      arrBody (List.map String.data gb) ++ ']' :: [] := by rw [h6]
  obtain ⟨h7, -⟩ := arrBody_append_inj h6'
  simp [stringData_inj h1, mapData_inj h3, mapData_inj h5, mapData_inj h7]

/-- Sorting is invariant under permutation of the input. -/
theorem sortStrings_perm_eq {l1 l2 : List String} (h : l1.Perm l2) :
    sortStrings l1 = sortStrings l2 :=
  List.eq_of_perm_of_sorted
    ((List.perm_insertionSort _ l1).trans (h.trans (List.perm_insertionSort _ l2).symm))
    (List.sorted_insertionSort _ l1)
    (List.sorted_insertionSort _ l2)

/-- C9: for any collision-free digest, the deterministic composite-item
identifier is invariant under permutation of each selection set, and two
items receive the same identifier iff their normalized content (size plus
lexicographically sorted selection-set codes) is equal — in particular
changing any component code changes the id. -/
theorem generateTacoID_permutation_and_iff (sha256hex : String → String)
    (hinj : Function.Injective sha256hex) :
    (∀ x y : TacoItem, x.size = y.size → x.meats.Perm y.meats →
      x.sauces.Perm y.sauces → x.garnitures.Perm y.garnitures →
      generateTacoID sha256hex x = generateTacoID sha256hex y) ∧
    (∀ x y : TacoItem, generateTacoID sha256hex x = generateTacoID sha256hex y ↔
      normalizeTaco x = normalizeTaco y) := by
  constructor
  · intro x y hsize hm hs hg
    unfold generateTacoID normalizeTaco
    rw [hsize, sortStrings_perm_eq (hm.map MeatSel.id),
      sortStrings_perm_eq (hs.map SauceSel.id),
      sortStrings_perm_eq (hg.map GarnSel.id)]
  · intro x y
    constructor
    · intro h
      have h2 := hinj h
      have h3 : (String.mk (tacoJson (normalizeTaco x))).data =
          (String.mk (tacoJson (normalizeTaco y))).data := by rw [h2]
      simp at h3
      exact tacoJson_inj h3
    · intro h
      unfold generateTacoID
      rw [h]

/-- Witness for C9: with the identity digest (injective), swapping the two
meats of a taco leaves the identifier unchanged, and the identifier
equality transfers to equality of the normalized records. -/
theorem generateTacoID_permutation_and_iff_witness :
    generateTacoID id
        ⟨"t1", "tacos_L", [⟨"mA", 1⟩, ⟨"mB", 2⟩], [⟨"s1"⟩], [], none, 1⟩ =
      generateTacoID id
        ⟨"t2", "tacos_L", [⟨"mB", 2⟩, ⟨"mA", 1⟩], [⟨"s1"⟩], [], some "x", 1⟩ ∧
    normalizeTaco ⟨"t1", "tacos_L", [⟨"mA", 1⟩, ⟨"mB", 2⟩], [⟨"s1"⟩], [], none, 1⟩ =
      normalizeTaco ⟨"t2", "tacos_L", [⟨"mB", 2⟩, ⟨"mA", 1⟩], [⟨"s1"⟩], [], some "x", 1⟩ := by
  have h := generateTacoID_permutation_and_iff id (fun a b hab => hab)
  have heq := h.1
    ⟨"t1", "tacos_L", [⟨"mA", 1⟩, ⟨"mB", 2⟩], [⟨"s1"⟩], [], none, 1⟩
    ⟨"t2", "tacos_L", [⟨"mB", 2⟩, ⟨"mA", 1⟩], [⟨"s1"⟩], [], some "x", 1⟩
    rfl (List.Perm.swap (⟨"mB", 2⟩ : MeatSel) ⟨"mA", 1⟩ [])
    (List.Perm.refl _) (List.Perm.refl _)
  exact ⟨heq, (h.2 _ _).mp heq⟩

/-- C10: the free-text note does not participate in the derived identity —
`assignDeterministicIds` gives two tacos that differ only in their note
(and possibly their incoming id) the same deterministic identifier, for
every digest. -/
theorem note_excluded_from_identity (digest : String → String) (t u : TacoItem)
    (hsize : t.size = u.size) (hmeats : t.meats = u.meats)
    (hsauces : t.sauces = u.sauces) (hgarn : t.garnitures = u.garnitures) :
    (assignDeterministicIds digest ⟨[t], [], [], []⟩).tacos.map TacoItem.id =
      (assignDeterministicIds digest ⟨[u], [], [], []⟩).tacos.map TacoItem.id := by
  simp [assignDeterministicIds, generateTacoDeterministicUUID, hsize, hmeats,
    hsauces, hgarn]

/-- Witness for C10: concrete tacos differing only in their note receive
the same assigned identifier. -/
theorem note_excluded_from_identity_witness :
    (assignDeterministicIds id
        ⟨[⟨"a", "tacos_XL", [⟨"m1", 1⟩], [⟨"s1"⟩], [⟨"g1"⟩], none, 1⟩], [], [], []⟩).tacos.map
        TacoItem.id =
      (assignDeterministicIds id
        ⟨[⟨"b", "tacos_XL", [⟨"m1", 1⟩], [⟨"s1"⟩], [⟨"g1"⟩],
          some "extra sauce please", 1⟩], [], [], []⟩).tacos.map TacoItem.id :=
  note_excluded_from_identity id
    ⟨"a", "tacos_XL", [⟨"m1", 1⟩], [⟨"s1"⟩], [⟨"g1"⟩], none, 1⟩
    ⟨"b", "tacos_XL", [⟨"m1", 1⟩], [⟨"s1"⟩], [⟨"g1"⟩], some "extra sauce please", 1⟩
    rfl rfl rfl rfl

/-- Counterexample to C8: deleting a participant order ignores the time
window — with a stored-OPEN group order whose `endTime` has passed
(`CanAcceptMutations` is false and the effective status is EXPIRED at
`now = 250`), the delete use case still succeeds, because the source
checks only the stored status. -/
theorem delete_succeeds_after_expiry :
    GroupOrder.canBeModified
        ⟨"g", "g", "lead", 0, 100, GroupOrderStatus.OPEN, none⟩ 250 = false ∧
    getEffectiveGroupOrderStatus
        ⟨"g", "g", "lead", 0, 100, GroupOrderStatus.OPEN, none⟩ 250 =
      GroupOrderStatus.EXPIRED ∧
    deleteUserOrder
        (some ⟨"g", "g", "lead", 0, 100, GroupOrderStatus.OPEN, none⟩)
        (some ⟨"u1", "g", "alice", ⟨[], [⟨"e1", "Nachos", 1⟩], [], []⟩,
          UserOrderStatus.DRAFT⟩)
        "alice" "alice" =
      Except.ok () := by
  refine ⟨by decide, by decide, rfl⟩

/-- C8 amended: create/update of a participant order is gated by
`CanAcceptMutations` (`canBeModified`, i.e. effective status OPEN and
`now ∈ [startTime, endTime]`) and rejected with a not-modifiable
validation error otherwise; delete is gated only by the leader-or-owner
check and the stored status being OPEN, with no time-window check. -/
theorem mutation_gating (digest : String → String) (go : GroupOrder)
    (now : Int) (stock : StockAvailability) (gid uid del : String)
    (items : UserOrderItems) (uo : UserOrder) :
    ((∃ v, createUserOrder digest (some go) now stock gid uid items =
        Except.ok v) → go.canBeModified now = true) ∧
    (go.canBeModified now = false →
      createUserOrder digest (some go) now stock gid uid items =
        Except.error (SvcError.validation
          "Cannot modify user order. Group order status" [])) ∧
    ((deleteUserOrder (some go) (some uo) uid del = Except.ok ()) ↔
      ((go.isLeader del = true ∨ uid = del) ∧
        go.status = GroupOrderStatus.OPEN)) := by
  refine ⟨?_, ?_, ?_⟩
  · intro ⟨v, hv⟩
    by_cases hcm : go.canBeModified now = true
    · exact hcm
    · exfalso
      unfold createUserOrder at hv
      simp [hcm] at hv
  · intro hcm
    unfold createUserOrder
    simp [hcm]
  · unfold deleteUserOrder
    by_cases hld : go.isLeader del = true
    · by_cases hs : go.status = GroupOrderStatus.OPEN <;> simp [hld, hs]
    · by_cases ho : uid = del
      · by_cases hs : go.status = GroupOrderStatus.OPEN <;> simp [hld, ho, hs]
      · simp [hld, ho]

/-- Witness for C8 amended: a successful in-window create implies
`canBeModified`; an out-of-window create is rejected; a leader delete on a
stored-OPEN order succeeds via the iff. -/
theorem mutation_gating_witness :
    GroupOrder.canBeModified
        ⟨"g", "g", "lead", 0, 100, GroupOrderStatus.OPEN, none⟩ 50 = true ∧
    createUserOrder id
        (some ⟨"g", "g", "lead", 0, 100, GroupOrderStatus.OPEN, none⟩) 250
        ⟨fun _ => some ⟨true⟩, fun _ => some ⟨true⟩, fun _ => some ⟨true⟩,
          fun _ => some ⟨true⟩, fun _ => some ⟨true⟩, fun _ => some ⟨true⟩⟩
        "g" "alice" ⟨[], [⟨"e1", "Nachos", 1⟩], [], []⟩ =
      Except.error (SvcError.validation
        "Cannot modify user order. Group order status" []) ∧
    deleteUserOrder
        (some ⟨"g", "g", "lead", 0, 100, GroupOrderStatus.OPEN, none⟩)
        (some ⟨"u1", "g", "alice", ⟨[], [⟨"e1", "Nachos", 1⟩], [], []⟩,
          UserOrderStatus.DRAFT⟩)
        "alice" "lead" =
      Except.ok () := by
  refine ⟨?_, ?_, ?_⟩
  · exact (mutation_gating id
      ⟨"g", "g", "lead", 0, 100, GroupOrderStatus.OPEN, none⟩ 50
      ⟨fun _ => some ⟨true⟩, fun _ => some ⟨true⟩, fun _ => some ⟨true⟩,
        fun _ => some ⟨true⟩, fun _ => some ⟨true⟩, fun _ => some ⟨true⟩⟩
      "g" "alice" "alice" ⟨[], [⟨"e1", "Nachos", 1⟩], [], []⟩
      ⟨"u1", "g", "alice", ⟨[], [], [], []⟩, UserOrderStatus.DRAFT⟩).1
      ⟨⟨"", "g", "alice", ⟨[], [⟨"e1:1", "Nachos", 1⟩], [], []⟩,
        UserOrderStatus.DRAFT⟩, rfl⟩
  · exact (mutation_gating id
      ⟨"g", "g", "lead", 0, 100, GroupOrderStatus.OPEN, none⟩ 250
      ⟨fun _ => some ⟨true⟩, fun _ => some ⟨true⟩, fun _ => some ⟨true⟩,
        fun _ => some ⟨true⟩, fun _ => some ⟨true⟩, fun _ => some ⟨true⟩⟩
      "g" "alice" "alice" ⟨[], [⟨"e1", "Nachos", 1⟩], [], []⟩
      ⟨"u1", "g", "alice", ⟨[], [], [], []⟩, UserOrderStatus.DRAFT⟩).2.1 (by decide)
  · exact (mutation_gating id
      ⟨"g", "g", "lead", 0, 100, GroupOrderStatus.OPEN, none⟩ 0
      ⟨fun _ => some ⟨true⟩, fun _ => some ⟨true⟩, fun _ => some ⟨true⟩,
        fun _ => some ⟨true⟩, fun _ => some ⟨true⟩, fun _ => some ⟨true⟩⟩
      "g" "alice" "lead" ⟨[], [], [], []⟩
      ⟨"u1", "g", "alice", ⟨[], [⟨"e1", "Nachos", 1⟩], [], []⟩,
        UserOrderStatus.DRAFT⟩).2.2.mpr ⟨Or.inl (by decide), by decide⟩

/-- `natReprAux` computes the reversed decimal digits, given enough
fuel. -/
theorem natReprAux_digits : ∀ (f n : Nat), n < f →
    natReprAux f n = ((Nat.digits 10 n).map charOfDigit).reverse := by
  intro f
  induction f with
  | zero => intro n h; omega
  | succ f ih =>
    intro n h
    rw [natReprAux]
    by_cases hn : n = 0
    · simp [hn]
    · have hd := Nat.digits_def' (by norm_num : (1 : Nat) < 10) (Nat.pos_of_ne_zero hn)
      have hih := ih (n / 10) (by
        have := Nat.div_lt_self (Nat.pos_of_ne_zero hn) (by norm_num : 1 < 10)
        omega)
      rw [if_neg hn, hih, hd]
      simp

/-- `natRepr 0` is the single digit zero. -/
theorem natRepr_zero : natRepr 0 = ['0'] := rfl

/-- For positive numbers, `natRepr` is the digit string of `Nat.digits`,
most significant first. -/
theorem natRepr_pos (n : Nat) (h : n ≠ 0) :
    natRepr n = ((Nat.digits 10 n).map charOfDigit).reverse := by
  rw [natRepr, if_neg h, natReprAux_digits (n + 1) n (by omega)]

/-- Digit characters are distinct for distinct digits. -/
theorem charOfDigit_inj_lt : ∀ d1, d1 < 10 → ∀ d2, d2 < 10 →
    charOfDigit d1 = charOfDigit d2 → d1 = d2 := by decide

/-- A digit character is never the underscore. -/
theorem charOfDigit_ne_underscore : ∀ d, d < 10 → charOfDigit d ≠ '_' := by decide

/-- Decoding a digit character recovers the digit. -/
theorem charToDigit_round : ∀ d, d < 10 → (charOfDigit d).toNat - 48 = d := by decide

/-- Character decoding inverts digit-list encoding. -/
theorem map_charOfDigit_round : ∀ l : List Nat, (∀ d ∈ l, d < 10) →
    (l.map charOfDigit).map (fun c => c.toNat - 48) = l := by
  intro l
  induction l with
  | nil => intro _; rfl
  | cons d ds ih =>
    intro h
    have hd : d < 10 := h d (by simp)
    simp [charToDigit_round d hd, ih (fun x hx => h x (by simp [hx]))]

/-- The decimal representation is injective. -/
theorem natRepr_inj {n m : Nat} (h : natRepr n = natRepr m) : n = m := by
  by_cases hn : n = 0 <;> by_cases hm : m = 0
  · omega
  · exfalso
    rw [hn, natRepr_zero, natRepr_pos m hm] at h
    have h2 : (Nat.digits 10 m).map charOfDigit = ['0'] := by
      have := congrArg List.reverse h
      simpa using this.symm
    rcases hdig : Nat.digits 10 m with _ | ⟨d, ds⟩
    · rw [hdig] at h2; simp at h2
    · rw [hdig] at h2
      simp at h2
      obtain ⟨hc, hds⟩ := h2
      have hd10 : d < 10 := Nat.digits_lt_base (by norm_num) (by rw [hdig]; simp)
      have : d = 0 := charOfDigit_inj_lt d hd10 0 (by norm_num) (by
        rw [hc]; rfl)
      have hm0 : m = 0 := by
        have hh := Nat.ofDigits_digits 10 m
        rw [hdig, hds] at hh
        simp [Nat.ofDigits, this] at hh
        omega
      exact hm hm0
  · exfalso
    rw [hm, natRepr_zero, natRepr_pos n hn] at h
    have h2 : (Nat.digits 10 n).map charOfDigit = ['0'] := by
      have := congrArg List.reverse h
      simpa using this
    rcases hdig : Nat.digits 10 n with _ | ⟨d, ds⟩
    · rw [hdig] at h2; simp at h2
    · rw [hdig] at h2
      simp at h2
      obtain ⟨hc, hds⟩ := h2
      have hd10 : d < 10 := Nat.digits_lt_base (by norm_num) (by rw [hdig]; simp)
      have : d = 0 := charOfDigit_inj_lt d hd10 0 (by norm_num) (by
        rw [hc]; rfl)
      have hn0 : n = 0 := by
        have hh := Nat.ofDigits_digits 10 n
        rw [hdig, hds] at hh
        simp [Nat.ofDigits, this] at hh
        omega
      exact hn hn0
  · rw [natRepr_pos n hn, natRepr_pos m hm] at h
    have h2 := congrArg List.reverse h
    simp at h2
    have h3 := congrArg (List.map (fun c => c.toNat - 48)) h2
    rw [map_charOfDigit_round _ (fun d hd => Nat.digits_lt_base (by norm_num) hd),
      map_charOfDigit_round _ (fun d hd => Nat.digits_lt_base (by norm_num) hd)] at h3
    calc n = Nat.ofDigits 10 (Nat.digits 10 n) := (Nat.ofDigits_digits 10 n).symm
    _ = Nat.ofDigits 10 (Nat.digits 10 m) := by rw [h3]
    _ = m := Nat.ofDigits_digits 10 m

/-- The decimal representation never contains an underscore. -/
theorem natRepr_no_underscore (n : Nat) : ∀ c ∈ natRepr n, c ≠ '_' := by
  by_cases hn : n = 0
  · rw [hn, natRepr_zero]
    intro c hc
    simp at hc
    rw [hc]
    decide
  · rw [natRepr_pos n hn]
    intro c hc
    simp at hc
    obtain ⟨d, hd, hcd⟩ := hc
    rw [← hcd]
    exact charOfDigit_ne_underscore d (Nat.digits_lt_base (by norm_num) hd)

/-- `splitU` cuts at the first underscore. -/
theorem splitU_append (pre : List Char) :
    ∀ r, (∀ c ∈ pre, c ≠ '_') → splitU (pre ++ '_' :: r) = some (pre, r) := by
  induction pre with
  | nil =>
    intro r _
    rw [List.nil_append, splitU.eq_def]
    simp
  | cons c cs ih =>
    intro r h
    have hc : c ≠ '_' := h c (by simp)
    rw [List.cons_append, splitU.eq_def]
    simp [hc, ih r (fun x hx => h x (by simp [hx]))]

/-- Counterexample to C4: two invocations of the external submit for the
same group order at different times attach different transaction ids — the
token is freshly generated per call, never reused — so "every retry uses
the same idempotency token as the first attempt" fails on the code. -/
theorem transaction_token_not_reused :
    transactionId 1000 "abc123" = "1000_abc123" ∧
    (submitOrder ⟨"Bob", "0791234567"⟩ ⟨"livraison", none, none⟩ 1000
        "abc123").map SubmitOrderForm.transaction_id =
      Except.ok "1000_abc123" ∧
    (submitOrder ⟨"Bob", "0791234567"⟩ ⟨"livraison", none, none⟩ 2000
        "abc123").map SubmitOrderForm.transaction_id =
      Except.ok "2000_abc123" ∧
    transactionId 1000 "abc123" ≠ transactionId 2000 "abc123" := by
  refine ⟨by decide, rfl, rfl, by decide⟩

/-- C4 amended: each invocation of the external submit attaches a
transaction id generated from that call's timestamp and random suffix
(`submitOrder` builds the form with `transactionId nowMs randSuffix`), and
two invocations carry the same token iff both their timestamps and their
(underscore-free) random suffixes coincide — a retry at a different time
carries a different token. -/
theorem transactionId_fresh_per_call :
    (∀ (customer : Customer) (delivery : DeliveryInfo) (nowMs : Nat)
      (randSuffix : String), customer.name ≠ "" → customer.phone ≠ "" →
      submitOrder customer delivery nowMs randSuffix =
        Except.ok ⟨customer.name, customer.phone, customer.phone,
          delivery.address, delivery.type, delivery.requestedFor,
          transactionId nowMs randSuffix⟩) ∧
    (∀ (t1 t2 : Nat) (r1 r2 : String), (∀ c ∈ r1.data, c ≠ '_') →
      (∀ c ∈ r2.data, c ≠ '_') →
      (transactionId t1 r1 = transactionId t2 r2 ↔ t1 = t2 ∧ r1 = r2)) := by
  constructor
  · intro customer delivery nowMs randSuffix hname hphone
    unfold submitOrder
    simp [hname, hphone]
  · intro t1 t2 r1 r2 h1 h2
    constructor
    · intro h
      unfold transactionId at h
      have hdata : natRepr t1 ++ '_' :: r1.data = natRepr t2 ++ '_' :: r2.data := by
        have := congrArg String.data h
        simpa using this
      have hs := (splitU_append (natRepr t1) r1.data
        (natRepr_no_underscore t1)).symm.trans
        (hdata ▸ splitU_append (natRepr t2) r2.data (natRepr_no_underscore t2))
      simp at hs
      exact ⟨natRepr_inj hs.1, stringData_inj hs.2⟩
    · intro ⟨ha, hb⟩
      rw [ha, hb]

/-- Witness for C4 amended: a concrete valid submission carries the
generated token, and tokens from calls at times 1000 and 2000 with the
same suffix differ, via the characterization. -/
theorem transactionId_fresh_per_call_witness :
    submitOrder ⟨"Bob", "0791234567"⟩ ⟨"emporter", none, some "15:00"⟩ 1000
        "xyz789" =
      Except.ok ⟨"Bob", "0791234567", "0791234567", none, "emporter",
        some "15:00", transactionId 1000 "xyz789"⟩ ∧
    transactionId 1000 "xyz789" ≠ transactionId 2000 "xyz789" := by
  constructor
  · exact transactionId_fresh_per_call.1 ⟨"Bob", "0791234567"⟩
      ⟨"emporter", none, some "15:00"⟩ 1000 "xyz789" (by decide) (by decide)
  · intro h
    have := (transactionId_fresh_per_call.2 1000 2000 "xyz789" "xyz789"
      (by decide) (by decide)).mp h
    omega
